import Mathlib

/-!
# Deployment script `scripts/math.deploy.js`

A shallow embedding of the deployment script and of the process boundary
around it.  The Hardhat runtime environment is external to the repository, so
it appears here as a parameter: a scripted client whose methods record their
invocation and settle the way the client says.  A run of the script is the
list of events it leaves behind: client calls, their settlements, console
writes and the process exit.
-/

namespace MathDeploy

/-! ## Values and events -/

/-- A thrown value or rejection reason. -/
structure JsError where
  name : String
  message : String
deriving DecidableEq, Repr

/-- What a run leaves behind, in the order it happens. -/
inductive Event where
  /-- A client method is called with the given arguments. -/
  | invoke (method : String) (args : List String)
  /-- The promise returned by a client method is fulfilled. -/
  | fulfil (method : String)
  /-- The promise returned by a client method is rejected. -/
  | reject (method : String) (reason : JsError)
  /-- One `console.log` write: a line on standard output. -/
  | stdout (line : String)
  /-- One `console.error` write: the value handed to standard error. -/
  | stderr (value : JsError)
  /-- The call `process.exit(code)`. -/
  | exit (code : Nat)
deriving DecidableEq, Repr

/-- How a piece of script settles. After `exited` no continuation runs. -/
inductive Settled (α : Type) where
  | fulfilled (value : α)
  | rejected (reason : JsError)
  | exited

/-- A piece of script: it extends the trace and settles. -/
def Script (α : Type) : Type := List Event → Settled α × List Event

/-- Sequencing inside an `async` function: a rejection or a process exit
skips everything that follows. -/
def Script.bind {α β : Type} (p : Script α) (k : α → Script β) : Script β :=
  fun t =>
    match p t with
    | (.fulfilled a, t1) => k a t1
    | (.rejected e, t1) => (.rejected e, t1)
    | (.exited, t1) => (.exited, t1)

instance : Monad Script where
  pure a := fun t => (.fulfilled a, t)
  bind := Script.bind

/-! ## The client (Hardhat runtime environment), a parameter of the script -/

/-- A promise handed back by the client: the method it came from and the way
it settles once awaited. -/
structure Promise (α : Type) where
  method : String
  outcome : Except JsError α

/-- The receipt of a confirmed transaction. -/
structure Receipt where
  status : Nat

/-- Modelled from the spec: the pending transaction that `init()` resolves to
(section 6, "instance.init() -> pending tx"). Its confirmation is a further
asynchronous step with an outcome of its own. -/
structure PendingTx where
  hash : String
  onWait : Except JsError Receipt

/-- The confirmed instance that `deployed()` resolves to. -/
structure Instance where
  address : String

/-- The object that `deploy()` resolves to; the script binds it to
`analyticMath`. The field `address` is the value the script reads from that
object on line 16; `onDeployed` and `onInit` say how its two methods settle. -/
structure Contract where
  address : String
  onDeployed : List String → Except JsError Instance
  onInit : List String → Except JsError PendingTx

/-- The object that `getContractFactory` resolves to. -/
structure ContractFactory where
  onDeploy : List String → Except JsError Contract

/-- The `ethers` member of the runtime environment. -/
structure Ethers where
  onGetContractFactory : String → Except JsError ContractFactory

/-- The Hardhat runtime environment `hre`. -/
structure Hre where
  ethers : Ethers

/-- Calling a client method: the call is recorded and a promise comes back. -/
def invoke {α : Type} (method : String) (args : List String)
    (outcome : Except JsError α) : Script (Promise α) :=
  fun t => (.fulfilled ⟨method, outcome⟩, t ++ [.invoke method args])

/-- The expression `await p`: the script is suspended until `p` settles. -/
def await {α : Type} (p : Promise α) : Script α :=
  fun t =>
    match p.outcome with
    | .ok v => (.fulfilled v, t ++ [.fulfil p.method])
    | .error e => (.rejected e, t ++ [.reject p.method e])

/-- The call `hre.ethers.getContractFactory(name)`. -/
def Ethers.getContractFactory (ethers : Ethers) (name : String) :
    Script (Promise ContractFactory) :=
  invoke "getContractFactory" [name] (ethers.onGetContractFactory name)

/-- The call `factory.deploy(...args)`. -/
def ContractFactory.deploy (factory : ContractFactory) (args : List String) :
    Script (Promise Contract) :=
  invoke "deploy" args (factory.onDeploy args)

/-- The call `contract.deployed(...args)`. -/
def Contract.deployed (contract : Contract) (args : List String) :
    Script (Promise Instance) :=
  invoke "deployed" args (contract.onDeployed args)

/-- The call `contract.init(...args)`. -/
def Contract.init (contract : Contract) (args : List String) :
    Script (Promise PendingTx) :=
  invoke "init" args (contract.onInit args)

/-- The call `tx.wait(...args)` on a pending transaction. -/
def PendingTx.wait (tx : PendingTx) (args : List String) :
    Script (Promise Receipt) :=
  invoke "wait" args tx.onWait

/-! ## Console and process -/

/-- The call `console.log(line)`. -/
def console.log (line : String) : Script Unit :=
  fun t => (.fulfilled (), t ++ [.stdout line])

/-- The call `console.error(value)`. -/
def console.error (value : JsError) : Script Unit :=
  fun t => (.fulfilled (), t ++ [.stderr value])

/-- The call `process.exit(code)`: it does not return. -/
def process.exit {α : Type} (code : Nat) : Script α :=
  fun t => (.exited, t ++ [.exit code])

/-- The method `promise.then(onFulfilled)`. -/
def Script.then_ {α β : Type} (p : Script α) (onFulfilled : α → Script β) :
    Script β :=
  Script.bind p onFulfilled

/-- The method `promise.catch(onRejected)`. -/
def Script.catch_ {α : Type} (p : Script α) (onRejected : JsError → Script α) :
    Script α :=
  fun t =>
    match p t with
    | (.rejected e, t1) => onRejected e t1
    | (.fulfilled a, t1) => (.fulfilled a, t1)
    | (.exited, t1) => (.exited, t1)

/-! ## The script -/

/-- The function `main` of `scripts/math.deploy.js` (lines 8 to 17). -/
def main (hre : Hre) : Script Unit := do
  let AnalyticMathFactory ← await (← hre.ethers.getContractFactory "AnalyticMath")
  let analyticMath ← await (← AnalyticMathFactory.deploy [])
  let _ ← await (← analyticMath.deployed [])
  let _ ← await (← analyticMath.init [])
  console.log ("analyticMath address: " ++ analyticMath.address)

/-- The top-level statement of the script (lines 19 to 24):
`main().then(() => process.exit(0)).catch(error => ...)`. -/
def script (hre : Hre) : Script Unit :=
  ((main hre).then_ (fun _ => process.exit 0)).catch_
    (fun error => do
      console.error error
      process.exit 1)

/-- The trace of one run of the script against the client `hre`. -/
def run (hre : Hre) : List Event :=
  (script hre []).2

/-! ## Observations on a trace -/

/-- The lines written to standard output, in order. -/
def stdout (t : List Event) : List String :=
  t.filterMap (fun ev => match ev with
    | .stdout line => some line
    | _ => none)

/-- The text of standard output: `console.log` ends each line with a newline. -/
def stdoutText (t : List Event) : String :=
  String.join ((stdout t).map (fun line => line ++ "\n"))

/-- The values written to standard error, in order. -/
def stderr (t : List Event) : List JsError :=
  t.filterMap (fun ev => match ev with
    | .stderr value => some value
    | _ => none)

/-- The exit code of the process: the code of the first `process.exit`. -/
def exitCode (t : List Event) : Option Nat :=
  t.findSome? (fun ev => match ev with
    | .exit code => some code
    | _ => none)

/-- Whether an event is a call of some client method. -/
def isInvoke : Event → Bool
  | .invoke _ _ => true
  | _ => false

/-- Whether an event is a call of the client method `method`. -/
def isInvokeOf (method : String) : Event → Bool
  | .invoke m _ => m == method
  | _ => false

/-- How often the client method `method` is called in a trace. -/
def invocations (method : String) (t : List Event) : Nat :=
  t.countP (isInvokeOf method)

/-- Event `a` occurs in the trace at an earlier position than event `b`. -/
def Precedes (a b : Event) (t : List Event) : Prop :=
  ∃ i j : Nat, i < j ∧ t[i]? = some a ∧ t[j]? = some b

/-- No client method is called after a rejection. -/
def noInvokeAfterReject : List Event → Bool
  | [] => true
  | .reject _ _ :: rest => rest.all (fun ev => !isInvoke ev) && noInvokeAfterReject rest
  | _ :: rest => noInvokeAfterReject rest

/-! ## Scenarios: how the client answers along the path the script takes -/

/-- Template resolution for "AnalyticMath" fails with `e`. -/
def TemplateFails (hre : Hre) (e : JsError) : Prop :=
  hre.ethers.onGetContractFactory "AnalyticMath" = .error e

/-- The template resolves and the deployment submission fails with `e`. -/
def DeployFails (hre : Hre) (e : JsError) : Prop :=
  ∃ f, hre.ethers.onGetContractFactory "AnalyticMath" = .ok f ∧
    f.onDeploy [] = .error e

/-- The deployment is submitted and its confirmation fails with `e`. -/
def ConfirmationFails (hre : Hre) (e : JsError) : Prop :=
  ∃ f c, hre.ethers.onGetContractFactory "AnalyticMath" = .ok f ∧
    f.onDeploy [] = .ok c ∧ c.onDeployed [] = .error e

/-- The deployment is confirmed and `init()` fails with `e`. -/
def InitFails (hre : Hre) (e : JsError) : Prop :=
  ∃ f c inst, hre.ethers.onGetContractFactory "AnalyticMath" = .ok f ∧
    f.onDeploy [] = .ok c ∧ c.onDeployed [] = .ok inst ∧ c.onInit [] = .error e

/-- All four steps succeed: `deploy()` resolves to `c`, `deployed()` to `inst`
and `init()` to the pending transaction `tx`. -/
def Succeeds (hre : Hre) (c : Contract) (inst : Instance) (tx : PendingTx) : Prop :=
  ∃ f, hre.ethers.onGetContractFactory "AnalyticMath" = .ok f ∧
    f.onDeploy [] = .ok c ∧ c.onDeployed [] = .ok inst ∧ c.onInit [] = .ok tx

/-- Some step fails with `e`: the first failure along the path of the script. -/
def FailsWith (hre : Hre) (e : JsError) : Prop :=
  TemplateFails hre e ∨ DeployFails hre e ∨ ConfirmationFails hre e ∨ InitFails hre e

/-! ## Sample clients -/

/-- A sample error. -/
def sampleError : JsError := ⟨"Error", "boom"⟩

/-- A pending transaction that is confirmed. -/
def confirmedTx : PendingTx := ⟨"0x01", .ok ⟨1⟩⟩

/-- A pending transaction that reverts at confirmation. -/
def revertingTx : PendingTx := ⟨"0x02", .error ⟨"Error", "transaction failed"⟩⟩

/-- A client built from the answers of the four steps. -/
def mkHre (address : String) (deployed : Except JsError Instance)
    (init : Except JsError PendingTx) : Hre :=
  ⟨⟨fun _ => .ok ⟨fun _ => .ok ⟨address, fun _ => deployed, fun _ => init⟩⟩⟩⟩

/-- The contract object that `mkHre` deploys. -/
def mkContract (address : String) (deployed : Except JsError Instance)
    (init : Except JsError PendingTx) : Contract :=
  ⟨address, fun _ => deployed, fun _ => init⟩

/-- Every step succeeds and the address is the same everywhere. -/
def hreOk : Hre := mkHre "0xABCD1234" (.ok ⟨"0xABCD1234"⟩) (.ok confirmedTx)

/-- Template resolution fails. -/
def hreNoTemplate : Hre := ⟨⟨fun _ => .error sampleError⟩⟩

/-- The deployment submission fails. -/
def hreDeployFails : Hre := ⟨⟨fun _ => .ok ⟨fun _ => .error sampleError⟩⟩⟩

/-- The deployment confirmation fails. -/
def hreConfirmationFails : Hre := mkHre "0xABCD1234" (.error sampleError) (.ok confirmedTx)

/-- The call `init()` fails after a confirmed deployment. -/
def hreInitFails : Hre := mkHre "0xABCD1234" (.ok ⟨"0xABCD1234"⟩) (.error sampleError)

/-- The call `init()` is submitted and the transaction reverts at confirmation. -/
def hreInitReverts : Hre := mkHre "0xABCD1234" (.ok ⟨"0xABCD1234"⟩) (.ok revertingTx)

/-- The handle of `deploy()` and the instance of `deployed()` carry different
addresses. -/
def hreTwoAddresses : Hre := mkHre "0xAAAA" (.ok ⟨"0xBBBB"⟩) (.ok confirmedTx)

/-! ## The five runs

The script has one path; where it stops depends on the first step the client
fails. Each lemma gives the whole trace of one of the five cases. -/

theorem run_of_templateFails (hre : Hre) (e : JsError)
    (h : hre.ethers.onGetContractFactory "AnalyticMath" = .error e) :
    run hre =
      [.invoke "getContractFactory" ["AnalyticMath"], .reject "getContractFactory" e,
       .stderr e, .exit 1] := by
  simp [run, script, main, Script.then_, Script.catch_, Script.bind, bind, await, invoke,
    Ethers.getContractFactory, console.error, process.exit, h]

theorem run_of_deployFails (hre : Hre) (f : ContractFactory) (e : JsError)
    (h1 : hre.ethers.onGetContractFactory "AnalyticMath" = .ok f)
    (h2 : f.onDeploy [] = .error e) :
    run hre =
      [.invoke "getContractFactory" ["AnalyticMath"], .fulfil "getContractFactory",
       .invoke "deploy" [], .reject "deploy" e,
       .stderr e, .exit 1] := by
  simp [run, script, main, Script.then_, Script.catch_, Script.bind, bind, await, invoke,
    Ethers.getContractFactory, ContractFactory.deploy, console.error, process.exit, h1, h2]

theorem run_of_confirmationFails (hre : Hre) (f : ContractFactory) (c : Contract)
    (e : JsError)
    (h1 : hre.ethers.onGetContractFactory "AnalyticMath" = .ok f)
    (h2 : f.onDeploy [] = .ok c) (h3 : c.onDeployed [] = .error e) :
    run hre =
      [.invoke "getContractFactory" ["AnalyticMath"], .fulfil "getContractFactory",
       .invoke "deploy" [], .fulfil "deploy",
       .invoke "deployed" [], .reject "deployed" e,
       .stderr e, .exit 1] := by
  simp [run, script, main, Script.then_, Script.catch_, Script.bind, bind, await, invoke,
    Ethers.getContractFactory, ContractFactory.deploy, Contract.deployed, console.error,
    process.exit, h1, h2, h3]

theorem run_of_initFails (hre : Hre) (f : ContractFactory) (c : Contract)
    (inst : Instance) (e : JsError)
    (h1 : hre.ethers.onGetContractFactory "AnalyticMath" = .ok f)
    (h2 : f.onDeploy [] = .ok c) (h3 : c.onDeployed [] = .ok inst)
    (h4 : c.onInit [] = .error e) :
    run hre =
      [.invoke "getContractFactory" ["AnalyticMath"], .fulfil "getContractFactory",
       .invoke "deploy" [], .fulfil "deploy",
       .invoke "deployed" [], .fulfil "deployed",
       .invoke "init" [], .reject "init" e,
       .stderr e, .exit 1] := by
  simp [run, script, main, Script.then_, Script.catch_, Script.bind, bind, await, invoke,
    Ethers.getContractFactory, ContractFactory.deploy, Contract.deployed, Contract.init,
    console.error, process.exit, h1, h2, h3, h4]

theorem run_of_success (hre : Hre) (f : ContractFactory) (c : Contract)
    (inst : Instance) (tx : PendingTx)
    (h1 : hre.ethers.onGetContractFactory "AnalyticMath" = .ok f)
    (h2 : f.onDeploy [] = .ok c) (h3 : c.onDeployed [] = .ok inst)
    (h4 : c.onInit [] = .ok tx) :
    run hre =
      [.invoke "getContractFactory" ["AnalyticMath"], .fulfil "getContractFactory",
       .invoke "deploy" [], .fulfil "deploy",
       .invoke "deployed" [], .fulfil "deployed",
       .invoke "init" [], .fulfil "init",
       .stdout ("analyticMath address: " ++ c.address), .exit 0] := by
  simp [run, script, main, Script.then_, Script.catch_, Script.bind, bind, await, invoke,
    Ethers.getContractFactory, ContractFactory.deploy, Contract.deployed, Contract.init,
    console.log, process.exit, h1, h2, h3, h4]

/-- Every client falls under one of the five cases. -/
theorem scenario_cases (hre : Hre) :
    (∃ e, TemplateFails hre e) ∨ (∃ e, DeployFails hre e) ∨
      (∃ e, ConfirmationFails hre e) ∨ (∃ e, InitFails hre e) ∨
      (∃ c inst tx, Succeeds hre c inst tx) := by
  rcases h1 : hre.ethers.onGetContractFactory "AnalyticMath" with e | f
  · exact Or.inl ⟨e, h1⟩
  rcases h2 : f.onDeploy [] with e | c
  · exact Or.inr (Or.inl ⟨e, f, h1, h2⟩)
  rcases h3 : c.onDeployed [] with e | inst
  · exact Or.inr (Or.inr (Or.inl ⟨e, f, c, h1, h2, h3⟩))
  rcases h4 : c.onInit [] with e | tx
  · exact Or.inr (Or.inr (Or.inr (Or.inl ⟨e, f, c, inst, h1, h2, h3, h4⟩)))
  · exact Or.inr (Or.inr (Or.inr (Or.inr ⟨c, inst, tx, f, h1, h2, h3, h4⟩)))

/-- The text of a standard output that holds one line. -/
theorem stdoutText_of_single (t : List Event) (line : String) (h : stdout t = [line]) :
    stdoutText t = line ++ "\n" := by
  simp [stdoutText, h, String.join]

/-- Two lines with the same leading text are equal only when the rest is. -/
theorem append_left_cancel (p a b : String) (h : p ++ a = p ++ b) : a = b := by
  have hd : (p ++ a).data = (p ++ b).data := by rw [h]
  simp only [String.data_append] at hd
  exact String.ext (List.append_cancel_left hd)

/-! ## The claims -/

/-- C1: in every run where `getContractFactory`, `deploy()`, `deployed()` and
`init()` all succeed, the exit code is 0 and standard output is exactly one
line: the text "analyticMath address: " followed by the address of the
deployed contract object. -/
theorem success_exits_zero_and_prints_address_line (hre : Hre) (c : Contract)
    (inst : Instance) (tx : PendingTx) (h : Succeeds hre c inst tx) :
    exitCode (run hre) = some 0 ∧
      stdout (run hre) = ["analyticMath address: " ++ c.address] ∧
      stdoutText (run hre) = "analyticMath address: " ++ c.address ++ "\n" := by
  obtain ⟨f, h1, h2, h3, h4⟩ := h
  have ht := run_of_success hre f c inst tx h1 h2 h3 h4
  have hs : stdout (run hre) = ["analyticMath address: " ++ c.address] := by
    rw [ht]; rfl
  refine ⟨?_, hs, stdoutText_of_single _ _ hs⟩
  rw [ht]; rfl

theorem success_exits_zero_and_prints_address_line_witness :
    Succeeds hreOk (mkContract "0xABCD1234" (.ok ⟨"0xABCD1234"⟩) (.ok confirmedTx))
        ⟨"0xABCD1234"⟩ confirmedTx ∧
      exitCode (run hreOk) = some 0 ∧
      stdout (run hreOk) = ["analyticMath address: " ++ "0xABCD1234"] ∧
      stdoutText (run hreOk) = "analyticMath address: " ++ "0xABCD1234" ++ "\n" :=
  ⟨⟨_, rfl, rfl, rfl, rfl⟩,
    success_exits_zero_and_prints_address_line hreOk
      (mkContract "0xABCD1234" (.ok ⟨"0xABCD1234"⟩) (.ok confirmedTx)) ⟨"0xABCD1234"⟩
      confirmedTx ⟨_, rfl, rfl, rfl, rfl⟩⟩

/-- C2: in every run where one of the steps (template resolution, deployment
submission, deployment confirmation, init call) fails with error `e`, the
value written to standard error is exactly `e` and nothing else, the write
comes right before the process exit, and the exit code is 1. -/
theorem failure_prints_error_then_exits_one (hre : Hre) (e : JsError)
    (h : FailsWith hre e) :
    stderr (run hre) = [e] ∧ exitCode (run hre) = some 1 ∧
      ∃ before, run hre = before ++ [.stderr e, .exit 1] ∧
        stderr before = [] ∧ exitCode before = none := by
  rcases h with h | ⟨f, h1, h2⟩ | ⟨f, c, h1, h2, h3⟩ | ⟨f, c, inst, h1, h2, h3, h4⟩
  · rw [run_of_templateFails hre e h]
    exact ⟨rfl, rfl,
      [.invoke "getContractFactory" ["AnalyticMath"], .reject "getContractFactory" e],
      rfl, rfl, rfl⟩
  · rw [run_of_deployFails hre f e h1 h2]
    exact ⟨rfl, rfl,
      [.invoke "getContractFactory" ["AnalyticMath"], .fulfil "getContractFactory",
       .invoke "deploy" [], .reject "deploy" e], rfl, rfl, rfl⟩
  · rw [run_of_confirmationFails hre f c e h1 h2 h3]
    exact ⟨rfl, rfl,
      [.invoke "getContractFactory" ["AnalyticMath"], .fulfil "getContractFactory",
       .invoke "deploy" [], .fulfil "deploy",
       .invoke "deployed" [], .reject "deployed" e], rfl, rfl, rfl⟩
  · rw [run_of_initFails hre f c inst e h1 h2 h3 h4]
    exact ⟨rfl, rfl,
      [.invoke "getContractFactory" ["AnalyticMath"], .fulfil "getContractFactory",
       .invoke "deploy" [], .fulfil "deploy",
       .invoke "deployed" [], .fulfil "deployed",
       .invoke "init" [], .reject "init" e], rfl, rfl, rfl⟩

theorem failure_prints_error_then_exits_one_witness :
    FailsWith hreDeployFails sampleError ∧
      stderr (run hreDeployFails) = [sampleError] ∧
      exitCode (run hreDeployFails) = some 1 ∧
      ∃ before, run hreDeployFails = before ++ [.stderr sampleError, .exit 1] ∧
        stderr before = [] ∧ exitCode before = none :=
  ⟨Or.inr (Or.inl ⟨_, rfl, rfl⟩),
    failure_prints_error_then_exits_one hreDeployFails sampleError
      (Or.inr (Or.inl ⟨_, rfl, rfl⟩))⟩

/-- C3: in every run where `init()` fails after a successful deployment,
nothing is written to standard output (the address is never printed), the
error is written to standard error, and the exit code is 1. -/
theorem init_failure_prints_no_address (hre : Hre) (e : JsError)
    (h : InitFails hre e) :
    stdout (run hre) = [] ∧ stdoutText (run hre) = "" ∧
      stderr (run hre) = [e] ∧ exitCode (run hre) = some 1 := by
  obtain ⟨f, c, inst, h1, h2, h3, h4⟩ := h
  rw [run_of_initFails hre f c inst e h1 h2 h3 h4]
  exact ⟨rfl, rfl, rfl, rfl⟩

theorem init_failure_prints_no_address_witness :
    InitFails hreInitFails sampleError ∧
      stdout (run hreInitFails) = [] ∧ stdoutText (run hreInitFails) = "" ∧
      stderr (run hreInitFails) = [sampleError] ∧
      exitCode (run hreInitFails) = some 1 :=
  ⟨⟨_, _, ⟨"0xABCD1234"⟩, rfl, rfl, rfl, rfl⟩,
    init_failure_prints_no_address hreInitFails sampleError
      ⟨_, _, ⟨"0xABCD1234"⟩, rfl, rfl, rfl, rfl⟩⟩

/-- C4: in every run where deployment fails (the `deploy()` submission or the
`deployed()` confirmation rejects), `init()` is never invoked and the exit
code is 1. -/
theorem deployment_failure_never_invokes_init (hre : Hre) (e : JsError)
    (h : DeployFails hre e ∨ ConfirmationFails hre e) :
    invocations "init" (run hre) = 0 ∧ exitCode (run hre) = some 1 := by
  rcases h with ⟨f, h1, h2⟩ | ⟨f, c, h1, h2, h3⟩
  · rw [run_of_deployFails hre f e h1 h2]
    exact ⟨rfl, rfl⟩
  · rw [run_of_confirmationFails hre f c e h1 h2 h3]
    exact ⟨rfl, rfl⟩

theorem deployment_failure_never_invokes_init_witness :
    (DeployFails hreConfirmationFails sampleError ∨
        ConfirmationFails hreConfirmationFails sampleError) ∧
      invocations "init" (run hreConfirmationFails) = 0 ∧
      exitCode (run hreConfirmationFails) = some 1 :=
  ⟨Or.inr ⟨_, _, rfl, rfl, rfl⟩,
    deployment_failure_never_invokes_init hreConfirmationFails sampleError
      (Or.inr ⟨_, _, rfl, rfl, rfl⟩)⟩

/-- C5: in every run where template resolution for "AnalyticMath" fails, no
deployment transaction is submitted (no `deploy()` call is recorded, and no
`deployed()` or `init()` call either) and the exit code is 1. -/
theorem template_failure_submits_nothing (hre : Hre) (e : JsError)
    (h : TemplateFails hre e) :
    invocations "deploy" (run hre) = 0 ∧ invocations "deployed" (run hre) = 0 ∧
      invocations "init" (run hre) = 0 ∧ exitCode (run hre) = some 1 := by
  rw [run_of_templateFails hre e h]
  exact ⟨rfl, rfl, rfl, rfl⟩

theorem template_failure_submits_nothing_witness :
    TemplateFails hreNoTemplate sampleError ∧
      invocations "deploy" (run hreNoTemplate) = 0 ∧
      invocations "deployed" (run hreNoTemplate) = 0 ∧
      invocations "init" (run hreNoTemplate) = 0 ∧
      exitCode (run hreNoTemplate) = some 1 :=
  ⟨rfl, template_failure_submits_nothing hreNoTemplate sampleError rfl⟩

/-- C6: in every successful run the recorded events are strictly ordered:
template resolution for "AnalyticMath", `deploy()` without arguments, the
completion of `deployed()`, the call of `init()` without arguments, the
write of the address line, the exit. No event occurs twice; the deployment
confirmation precedes the call of `init()`, and `init()` precedes the
print. -/
theorem success_trace_is_strictly_ordered (hre : Hre) (c : Contract)
    (inst : Instance) (tx : PendingTx) (h : Succeeds hre c inst tx) :
    run hre =
        [.invoke "getContractFactory" ["AnalyticMath"], .fulfil "getContractFactory",
         .invoke "deploy" [], .fulfil "deploy",
         .invoke "deployed" [], .fulfil "deployed",
         .invoke "init" [], .fulfil "init",
         .stdout ("analyticMath address: " ++ c.address), .exit 0] ∧
      (run hre).Nodup ∧
      Precedes (.fulfil "deployed") (.invoke "init" []) (run hre) ∧
      Precedes (.invoke "init" []) (.stdout ("analyticMath address: " ++ c.address))
        (run hre) ∧
      Precedes (.fulfil "init") (.stdout ("analyticMath address: " ++ c.address))
        (run hre) := by
  obtain ⟨f, h1, h2, h3, h4⟩ := h
  have ht := run_of_success hre f c inst tx h1 h2 h3 h4
  refine ⟨ht, ?_, ?_, ?_, ?_⟩
  · rw [ht]; simp
  · rw [ht]; exact ⟨5, 6, by decide, rfl, rfl⟩
  · rw [ht]; exact ⟨6, 8, by decide, rfl, rfl⟩
  · rw [ht]; exact ⟨7, 8, by decide, rfl, rfl⟩

theorem success_trace_is_strictly_ordered_witness :
    Succeeds hreOk (mkContract "0xABCD1234" (.ok ⟨"0xABCD1234"⟩) (.ok confirmedTx))
        ⟨"0xABCD1234"⟩ confirmedTx ∧
      run hreOk =
        [.invoke "getContractFactory" ["AnalyticMath"], .fulfil "getContractFactory",
         .invoke "deploy" [], .fulfil "deploy",
         .invoke "deployed" [], .fulfil "deployed",
         .invoke "init" [], .fulfil "init",
         .stdout ("analyticMath address: " ++ "0xABCD1234"), .exit 0] ∧
      (run hreOk).Nodup ∧
      Precedes (.fulfil "deployed") (.invoke "init" []) (run hreOk) ∧
      Precedes (.invoke "init" []) (.stdout ("analyticMath address: " ++ "0xABCD1234"))
        (run hreOk) ∧
      Precedes (.fulfil "init") (.stdout ("analyticMath address: " ++ "0xABCD1234"))
        (run hreOk) :=
  ⟨⟨_, rfl, rfl, rfl, rfl⟩,
    success_trace_is_strictly_ordered hreOk
      (mkContract "0xABCD1234" (.ok ⟨"0xABCD1234"⟩) (.ok confirmedTx)) ⟨"0xABCD1234"⟩
      confirmedTx ⟨_, rfl, rfl, rfl, rfl⟩⟩

/-- C7, as stated, fails: against a client whose `init()` is submitted
successfully and whose transaction then reverts at confirmation, the run does
not end with exit code 1 and an empty standard output; it prints the address
and exits with code 0. -/
theorem init_confirmation_not_awaited_counterexample :
    Succeeds hreInitReverts
        (mkContract "0xABCD1234" (.ok ⟨"0xABCD1234"⟩) (.ok revertingTx))
        ⟨"0xABCD1234"⟩ revertingTx ∧
      revertingTx.onWait = .error ⟨"Error", "transaction failed"⟩ ∧
      exitCode (run hreInitReverts) = some 0 ∧
      stdout (run hreInitReverts) = ["analyticMath address: 0xABCD1234"] ∧
      ¬ (exitCode (run hreInitReverts) = some 1 ∧ stdout (run hreInitReverts) = []) :=
  ⟨⟨_, rfl, rfl, rfl, rfl⟩, rfl, by decide, by decide, by decide⟩

/-- C7, amended: in every successful run the script awaits the promise that
`init()` returns, that is the submission of the transaction, before the
address is printed and before the process exits with code 0. The pending
transaction it resolves to is not awaited: `wait()` is never called and the
four client calls are the only ones, so whatever the confirmation of the init
transaction turns out to be, the address is printed and the exit code is 0. -/
theorem init_submission_awaited_confirmation_not (hre : Hre) (c : Contract)
    (inst : Instance) (tx : PendingTx) (h : Succeeds hre c inst tx) :
    Precedes (.fulfil "init") (.stdout ("analyticMath address: " ++ c.address))
        (run hre) ∧
      Precedes (.fulfil "init") (.exit 0) (run hre) ∧
      invocations "wait" (run hre) = 0 ∧
      (∀ m args, Event.invoke m args ∈ run hre →
        m ∈ ["getContractFactory", "deploy", "deployed", "init"]) ∧
      exitCode (run hre) = some 0 ∧
      stdout (run hre) = ["analyticMath address: " ++ c.address] := by
  obtain ⟨f, h1, h2, h3, h4⟩ := h
  rw [run_of_success hre f c inst tx h1 h2 h3 h4]
  refine ⟨⟨7, 8, by decide, rfl, rfl⟩, ⟨7, 9, by decide, rfl, rfl⟩, rfl, ?_, rfl, rfl⟩
  intro m args hm
  simp at hm
  rcases hm with ⟨hm, -⟩ | ⟨hm, -⟩ | ⟨hm, -⟩ | ⟨hm, -⟩ <;> simp [hm]

theorem init_submission_awaited_confirmation_not_witness :
    Succeeds hreInitReverts
        (mkContract "0xABCD1234" (.ok ⟨"0xABCD1234"⟩) (.ok revertingTx))
        ⟨"0xABCD1234"⟩ revertingTx ∧
      Precedes (.fulfil "init") (.stdout ("analyticMath address: " ++ "0xABCD1234"))
        (run hreInitReverts) ∧
      Precedes (.fulfil "init") (.exit 0) (run hreInitReverts) ∧
      invocations "wait" (run hreInitReverts) = 0 ∧
      (∀ m args, Event.invoke m args ∈ run hreInitReverts →
        m ∈ ["getContractFactory", "deploy", "deployed", "init"]) ∧
      exitCode (run hreInitReverts) = some 0 ∧
      stdout (run hreInitReverts) = ["analyticMath address: " ++ "0xABCD1234"] :=
  ⟨⟨_, rfl, rfl, rfl, rfl⟩,
    init_submission_awaited_confirmation_not hreInitReverts
      (mkContract "0xABCD1234" (.ok ⟨"0xABCD1234"⟩) (.ok revertingTx)) ⟨"0xABCD1234"⟩
      revertingTx ⟨_, rfl, rfl, rfl, rfl⟩⟩

/-- C8: no step is retried. In every run each of `getContractFactory`,
`deploy`, `deployed` and `init` is invoked at most once, at most one line is
written to standard output, and no client method is invoked after a step has
failed; in every successful run each of the four is invoked exactly once and
exactly one line is written. -/
theorem no_step_is_retried (hre : Hre) :
    (invocations "getContractFactory" (run hre) ≤ 1 ∧
        invocations "deploy" (run hre) ≤ 1 ∧
        invocations "deployed" (run hre) ≤ 1 ∧
        invocations "init" (run hre) ≤ 1 ∧
        (stdout (run hre)).length ≤ 1) ∧
      noInvokeAfterReject (run hre) = true ∧
      (∀ c inst tx, Succeeds hre c inst tx →
        invocations "getContractFactory" (run hre) = 1 ∧
          invocations "deploy" (run hre) = 1 ∧
          invocations "deployed" (run hre) = 1 ∧
          invocations "init" (run hre) = 1 ∧
          (stdout (run hre)).length = 1) := by
  refine ⟨?_, ?_, ?_⟩
  · rcases scenario_cases hre with ⟨e, h⟩ | ⟨e, f, h1, h2⟩ | ⟨e, f, c, h1, h2, h3⟩ |
      ⟨e, f, c, inst, h1, h2, h3, h4⟩ | ⟨c, inst, tx, f, h1, h2, h3, h4⟩
    · rw [run_of_templateFails hre e h]; exact ⟨Nat.le_of_ble_eq_true rfl, Nat.le_of_ble_eq_true rfl,
        Nat.le_of_ble_eq_true rfl, Nat.le_of_ble_eq_true rfl, Nat.le_of_ble_eq_true rfl⟩
    · rw [run_of_deployFails hre f e h1 h2]; exact ⟨Nat.le_of_ble_eq_true rfl, Nat.le_of_ble_eq_true rfl,
        Nat.le_of_ble_eq_true rfl, Nat.le_of_ble_eq_true rfl, Nat.le_of_ble_eq_true rfl⟩
    · rw [run_of_confirmationFails hre f c e h1 h2 h3]; exact ⟨Nat.le_of_ble_eq_true rfl, Nat.le_of_ble_eq_true rfl,
        Nat.le_of_ble_eq_true rfl, Nat.le_of_ble_eq_true rfl, Nat.le_of_ble_eq_true rfl⟩
    · rw [run_of_initFails hre f c inst e h1 h2 h3 h4]; exact ⟨Nat.le_of_ble_eq_true rfl, Nat.le_of_ble_eq_true rfl,
        Nat.le_of_ble_eq_true rfl, Nat.le_of_ble_eq_true rfl, Nat.le_of_ble_eq_true rfl⟩
    · rw [run_of_success hre f c inst tx h1 h2 h3 h4]; exact ⟨Nat.le_of_ble_eq_true rfl, Nat.le_of_ble_eq_true rfl,
        Nat.le_of_ble_eq_true rfl, Nat.le_of_ble_eq_true rfl, Nat.le_of_ble_eq_true rfl⟩
  · rcases scenario_cases hre with ⟨e, h⟩ | ⟨e, f, h1, h2⟩ | ⟨e, f, c, h1, h2, h3⟩ |
      ⟨e, f, c, inst, h1, h2, h3, h4⟩ | ⟨c, inst, tx, f, h1, h2, h3, h4⟩
    · rw [run_of_templateFails hre e h]; rfl
    · rw [run_of_deployFails hre f e h1 h2]; rfl
    · rw [run_of_confirmationFails hre f c e h1 h2 h3]; rfl
    · rw [run_of_initFails hre f c inst e h1 h2 h3 h4]; rfl
    · rw [run_of_success hre f c inst tx h1 h2 h3 h4]; rfl
  · rintro c inst tx ⟨f, h1, h2, h3, h4⟩
    rw [run_of_success hre f c inst tx h1 h2 h3 h4]
    exact ⟨rfl, rfl, rfl, rfl, rfl⟩

theorem no_step_is_retried_witness :
    Succeeds hreOk (mkContract "0xABCD1234" (.ok ⟨"0xABCD1234"⟩) (.ok confirmedTx))
        ⟨"0xABCD1234"⟩ confirmedTx ∧
      noInvokeAfterReject (run hreInitFails) = true ∧
      invocations "getContractFactory" (run hreOk) = 1 ∧
      invocations "deploy" (run hreOk) = 1 ∧
      invocations "deployed" (run hreOk) = 1 ∧
      invocations "init" (run hreOk) = 1 ∧
      (stdout (run hreOk)).length = 1 :=
  ⟨⟨_, rfl, rfl, rfl, rfl⟩, (no_step_is_retried hreInitFails).2.1,
    (no_step_is_retried hreOk).2.2
      (mkContract "0xABCD1234" (.ok ⟨"0xABCD1234"⟩) (.ok confirmedTx)) ⟨"0xABCD1234"⟩
      confirmedTx ⟨_, rfl, rfl, rfl, rfl⟩⟩

/-- C9, as stated, fails: against a client whose `deploy()` handle carries the
address 0xAAAA and whose `deployed()` instance carries 0xBBBB, the run
succeeds and the line printed does not hold the address of the instance that
`deployed()` returned. -/
theorem printed_address_not_from_deployed_counterexample :
    Succeeds hreTwoAddresses (mkContract "0xAAAA" (.ok ⟨"0xBBBB"⟩) (.ok confirmedTx))
        ⟨"0xBBBB"⟩ confirmedTx ∧
      stdout (run hreTwoAddresses) = ["analyticMath address: 0xAAAA"] ∧
      stdout (run hreTwoAddresses) ≠
        ["analyticMath address: " ++ (Instance.mk "0xBBBB").address] :=
  ⟨⟨_, rfl, rfl, rfl, rfl⟩, by decide, by decide⟩

/-- C9, amended: in every successful run the address printed is the address
field of the contract object that `deploy()` resolved to, the object on which
`deployed()` and `init()` are then called. The instance that `deployed()`
resolves to is discarded: the printed address is its address exactly when the
two objects carry the same address. -/
theorem printed_address_is_of_deploy_handle (hre : Hre) (c : Contract)
    (inst : Instance) (tx : PendingTx) (h : Succeeds hre c inst tx) :
    stdout (run hre) = ["analyticMath address: " ++ c.address] ∧
      (stdout (run hre) = ["analyticMath address: " ++ inst.address] ↔
        inst.address = c.address) := by
  obtain ⟨f, h1, h2, h3, h4⟩ := h
  have hs : stdout (run hre) = ["analyticMath address: " ++ c.address] := by
    rw [run_of_success hre f c inst tx h1 h2 h3 h4]; rfl
  refine ⟨hs, ?_, ?_⟩
  · intro h'
    rw [hs] at h'
    exact (append_left_cancel _ _ _ (List.head_eq_of_cons_eq h')).symm
  · intro h'
    rw [hs, h']

theorem printed_address_is_of_deploy_handle_witness :
    Succeeds hreTwoAddresses (mkContract "0xAAAA" (.ok ⟨"0xBBBB"⟩) (.ok confirmedTx))
        ⟨"0xBBBB"⟩ confirmedTx ∧
      stdout (run hreTwoAddresses) = ["analyticMath address: " ++ "0xAAAA"] ∧
      (stdout (run hreTwoAddresses) = ["analyticMath address: " ++ "0xBBBB"] ↔
        "0xBBBB" = "0xAAAA") :=
  ⟨⟨_, rfl, rfl, rfl, rfl⟩,
    printed_address_is_of_deploy_handle hreTwoAddresses
      (mkContract "0xAAAA" (.ok ⟨"0xBBBB"⟩) (.ok confirmedTx)) ⟨"0xBBBB"⟩ confirmedTx
      ⟨_, rfl, rfl, rfl, rfl⟩⟩

/-- C10: standard output and standard error are mutually exclusive. Every
run writes to exactly one of them and exits with code 0 or 1; a run that
exits with code 0 writes nothing to standard error, a run that exits with
code 1 writes nothing to standard output, and the exit code is 0 exactly when
a line was written to standard output. -/
theorem stdout_and_stderr_are_exclusive (hre : Hre) :
    ((stdout (run hre) ≠ [] ∧ stderr (run hre) = []) ∨
        (stdout (run hre) = [] ∧ stderr (run hre) ≠ [])) ∧
      (exitCode (run hre) = some 0 ∨ exitCode (run hre) = some 1) ∧
      (exitCode (run hre) = some 0 → stderr (run hre) = []) ∧
      (exitCode (run hre) = some 1 → stdout (run hre) = []) ∧
      (exitCode (run hre) = some 0 ↔ (stdout (run hre)).length = 1) ∧
      (exitCode (run hre) = some 0 ↔ ∃ line, Event.stdout line ∈ run hre) := by
  rcases scenario_cases hre with ⟨e, h⟩ | ⟨e, f, h1, h2⟩ | ⟨e, f, c, h1, h2, h3⟩ |
    ⟨e, f, c, inst, h1, h2, h3, h4⟩ | ⟨c, inst, tx, f, h1, h2, h3, h4⟩
  · rw [run_of_templateFails hre e h]
    simp [stdout, stderr, exitCode]
  · rw [run_of_deployFails hre f e h1 h2]
    simp [stdout, stderr, exitCode]
  · rw [run_of_confirmationFails hre f c e h1 h2 h3]
    simp [stdout, stderr, exitCode]
  · rw [run_of_initFails hre f c inst e h1 h2 h3 h4]
    simp [stdout, stderr, exitCode]
  · rw [run_of_success hre f c inst tx h1 h2 h3 h4]
    simp [stdout, stderr, exitCode]

end MathDeploy
